import Mathlib

/-!
Shallow embedding of the macropad firmware execution core
(src/queue_manager.py, src/macro_state.py, src/action_executor.py).

Conventions of the embedding:
* Python dict-based actions become the tagged `Action` type; a missing
  optional field is represented by its Python default (e.g. an absent
  inline wait is the value 0, as produced by action.get, with 0 as default).
* Device and logging side effects become an explicit `Effect` trace;
  informational prints are dropped, warning prints are kept as
  `Effect.warn` entries because the specification talks about them.
* time.monotonic() is passed in explicitly as a rational number `now`;
  deadlines are `Option` rationals (None = timer not set).
* Python exceptions (IndexError from indexing an empty list, ValueError
  from random.randint with min > max) are modelled with `Except`.
* The Python repeat stack appends at the end and reads index -1; here the
  stack is kept with the most recent frame first, so Python append
  becomes cons, stack[-1] becomes the head and pop() drops the head.
-/

namespace Macropad

/-- One observable side effect of the action executor: a device operation
on the keyboard/mouse handles, a sleep, or a warning log line. -/
inductive Effect where
  | kbPress (keycode : Nat)
  | kbReleaseAll
  | kbSendChar (c : Char)
  | sleepMs (ms : Nat)
  | mouseClick (button : Int)
  | mouseMove (x y wheel : Int)
  | warn (msg : String)
deriving DecidableEq

/-- The action variants handled by ActionExecutor.execute
(src/action_executor.py).  Each carries the fields the code reads off the
action dict, with Python .get defaults applied; `wait` is the inline
post-action wait read by action.get at the top of execute.  `unknown`
stands for a dict whose type string is none of the known variants (it may
still carry an inline wait field). -/
inductive Action where
  | press (keys : String) (wait : Int)
  | click (button : Int) (wait : Int)
  | move (x y : Int) (wait : Int)
  | scroll (amount : Int) (wait : Int)
  | wait (ms : Int)
  | waitRandom (minMs maxMs : Int)
  | typeText (text : String) (wait : Int)
  | repeatAct (actions : List Action) (count : Int)
  | unknown (ty : String) (wait : Int)

/-- One entry of MacroState.repeat_stack
(src/macro_state.py, enter_repeat): the repeated action list, the inner
cursor, the finished-iteration count and the configured target count. -/
structure RepeatFrame where
  actions : List Action
  current_index : Nat
  current_count : Nat
  max_count : Int

/-- The mutable state of one macro (src/macro_state.py, MacroState),
together with the configuration fields __init__ copies out of the config
dict (type string, name, action list, cycle wait). -/
structure MacroState where
  key_id : Nat
  type : String
  name : String
  actions : List Action
  wait_time : Int
  is_active : Bool
  current_action_index : Nat
  action_wait_until : Option ℚ
  cycle_wait_until : Option ℚ
  is_key_held : Bool
  repeat_stack : List RepeatFrame

namespace MacroState

/-- MacroState.__init__: the execution state a fresh MacroState starts in,
given the fields drawn from the config dict. -/
def init (key_id : Nat) (ty nm : String) (acts : List Action) (wait : Int) : MacroState :=
  { key_id := key_id
    type := ty
    name := nm
    actions := acts
    wait_time := wait
    is_active := false
    current_action_index := 0
    action_wait_until := none
    cycle_wait_until := none
    is_key_held := false
    repeat_stack := [] }

/-- MacroState.start: reset to the beginning and activate; hold macros
additionally record the key as held. -/
def start (s : MacroState) : MacroState :=
  { s with
    is_active := true
    current_action_index := 0
    action_wait_until := none
    cycle_wait_until := none
    repeat_stack := []
    is_key_held := if s.type = "hold" then true else s.is_key_held }

/-- MacroState.stop: deactivate, clear both timers, the held flag, the
repeat stack, and reset the cursor. -/
def stop (s : MacroState) : MacroState :=
  { s with
    is_active := false
    current_action_index := 0
    action_wait_until := none
    cycle_wait_until := none
    is_key_held := false
    repeat_stack := [] }

/-- MacroState.get_current_action: returns the action to execute next and
the (possibly mutated) state.  Consults the top repeat frame when the
stack is non-empty; at the end of a frame it bumps the iteration count and
either restarts the frame or pops it, bumps the top-level cursor and
retries.  Python raises IndexError when a frame with an empty action list
is restarted (repeat_actions[0] on an empty list). -/
def get_current_action (s : MacroState) : Except String (Option Action × MacroState) :=
  if s.is_active = false then .ok (none, s)
  else
    match h : s.repeat_stack with
    | f :: rest =>
      if hi : f.current_index < f.actions.length then
        .ok (some (f.actions.get ⟨f.current_index, hi⟩), s)
      else if ((f.current_count + 1 : Nat) : Int) < f.max_count then
        match f.actions with
        | [] => .error "IndexError"
        | a :: _ =>
          .ok (some a,
            { s with repeat_stack :=
                { f with current_count := f.current_count + 1, current_index := 0 } :: rest })
      else
        get_current_action
          { s with repeat_stack := rest,
                   current_action_index := s.current_action_index + 1 }
    | [] =>
      if hc : s.current_action_index < s.actions.length then
        .ok (some (s.actions.get ⟨s.current_action_index, hc⟩), s)
      else .ok (none, s)
termination_by s.repeat_stack.length
decreasing_by simp [h]

/-- MacroState.advance_action: step the inner cursor of the top repeat
frame, or the top-level cursor when no frame is open. -/
def advance_action (s : MacroState) : MacroState :=
  match s.repeat_stack with
  | f :: rest =>
    { s with repeat_stack := { f with current_index := f.current_index + 1 } :: rest }
  | [] => { s with current_action_index := s.current_action_index + 1 }

/-- MacroState.enter_repeat: push a fresh repeat frame (inner cursor 0,
iteration count 0) for the given body and target count. -/
def enter_repeat (acts : List Action) (count : Int) (s : MacroState) : MacroState :=
  { s with repeat_stack :=
      { actions := acts, current_index := 0, current_count := 0, max_count := count }
        :: s.repeat_stack }

/-- MacroState.get_state_name: the derived five-way state name. -/
def get_state_name (s : MacroState) : String :=
  if s.is_active = false then "OFF"
  else if s.cycle_wait_until.isSome then "SLEEPING"
  else if s.action_wait_until.isSome then "WAIT"
  else "ACTIVE"

/-- MacroState.set_action_wait: arm the inter-action timer for a positive
wait, clear it otherwise; now stands for time.monotonic(). -/
def set_action_wait (now : ℚ) (wait_ms : Int) (s : MacroState) : MacroState :=
  if 0 < wait_ms then
    { s with action_wait_until := some (now + (wait_ms : ℚ) / 1000) }
  else
    { s with action_wait_until := none }

/-- MacroState.set_cycle_wait: arm the inter-cycle timer from the
configured wait_time when positive, clear it otherwise. -/
def set_cycle_wait (now : ℚ) (s : MacroState) : MacroState :=
  if 0 < s.wait_time then
    { s with cycle_wait_until := some (now + (s.wait_time : ℚ) / 1000) }
  else
    { s with cycle_wait_until := none }

/-- MacroState.check_and_clear_action_timer: true exactly when the armed
inter-action deadline has passed, clearing it in that case. -/
def check_and_clear_action_timer (now : ℚ) (s : MacroState) : Bool × MacroState :=
  match s.action_wait_until with
  | some d => if d ≤ now then (true, { s with action_wait_until := none }) else (false, s)
  | none => (false, s)

/-- MacroState.check_and_clear_cycle_timer: true exactly when the armed
inter-cycle deadline has passed, clearing it in that case. -/
def check_and_clear_cycle_timer (now : ℚ) (s : MacroState) : Bool × MacroState :=
  match s.cycle_wait_until with
  | some d => if d ≤ now then (true, { s with cycle_wait_until := none }) else (false, s)
  | none => (false, s)

/-- MacroState.interrupt_to_sleeping: for a toggle macro, arm the cycle
timer from the configured wait, reset the cursor, clear the inter-action
timer and the repeat stack; for any other kind only a warning is printed
and the state is untouched. -/
def interrupt_to_sleeping (now : ℚ) (s : MacroState) : MacroState :=
  if s.type ≠ "toggle" then s
  else
    { set_cycle_wait now s with
      current_action_index := 0
      action_wait_until := none
      repeat_stack := [] }

/-- The invariant of spec section 3: at most one of the two deadlines is
set. -/
def at_most_one_deadline (s : MacroState) : Bool :=
  s.action_wait_until.isNone || s.cycle_wait_until.isNone

end MacroState

/-! QueueManager (src/queue_manager.py).  The claims under study concern
only the FIFO queue, so its operations are embedded as functions on the
queue list of key ids. -/

/-- QueueManager.MAX_QUEUE_SIZE. -/
def MAX_QUEUE_SIZE : Nat := 1000

/-- QueueManager.try_add_to_queue: success flag and resulting queue.
Already-present ids succeed without change; a full queue rejects a new id;
otherwise the id is appended. -/
def try_add_to_queue (queue : List Nat) (key_id : Nat) : Bool × List Nat :=
  if key_id ∈ queue then (true, queue)
  else if MAX_QUEUE_SIZE ≤ queue.length then (false, queue)
  else (true, queue ++ [key_id])

/-- QueueManager.remove_from_queue: Python list.remove drops the first
occurrence; absent ids leave the queue unchanged and report false. -/
def remove_from_queue (queue : List Nat) (key_id : Nat) : Bool × List Nat :=
  if key_id ∈ queue then (true, queue.erase key_id)
  else (false, queue)

/-! ActionExecutor (src/action_executor.py).  The keyboard/mouse handles
and the key-string parser are constructor parameters of the Python class;
here they appear as the abstract trace alphabet `Effect` and the function
argument parse_keys.  random.randint is passed in as the oracle rnd. -/

/-- ActionExecutor._execute_press: empty or unparsable key strings warn
and do nothing; otherwise every keycode is pressed, a 10 ms settle delay
passes, and all keys are released. -/
def execute_press (parse_keys : String → List Nat) (keys : String) : List Effect :=
  if keys = "" then [.warn "press action with no keys"]
  else
    let keycodes := parse_keys keys
    if keycodes = [] then [.warn ("Could not parse keys: " ++ keys)]
    else (keycodes.map Effect.kbPress) ++ [.sleepMs 10, .kbReleaseAll]

/-- ActionExecutor._execute_click: buttons 1, 2, 3 click; any other
button number warns and does nothing. -/
def execute_click (button : Int) : List Effect :=
  if button = 1 ∨ button = 2 ∨ button = 3 then [.mouseClick button]
  else [.warn "Unknown mouse button"]

/-- ActionExecutor._execute_type: empty text warns; otherwise each
character is sent with a 50 ms pause after it. -/
def execute_type (text : String) : List Effect :=
  if text = "" then [.warn "type action with no text"]
  else text.toList.flatMap (fun c => [.kbSendChar c, .sleepMs 50])

/-- ActionExecutor.execute: the device/warning trace, the returned inline
wait in milliseconds, and the state after a possible repeat entry.
random.randint raises ValueError when min exceeds max, modelled as the
error case. -/
def execute (rnd : Int → Int → Int) (parse_keys : String → List Nat)
    (action : Action) (macro_state : MacroState) :
    Except String (List Effect × Int × MacroState) :=
  match action with
  | .press keys w => .ok (execute_press parse_keys keys, w, macro_state)
  | .click button w => .ok (execute_click button, w, macro_state)
  | .move x y w => .ok ([.mouseMove x y 0], w, macro_state)
  | .scroll amount w => .ok ([.mouseMove 0 0 amount], w, macro_state)
  | .wait ms => .ok ([], ms, macro_state)
  | .waitRandom minMs maxMs =>
    if minMs ≤ maxMs then .ok ([], rnd minMs maxMs, macro_state)
    else .error "ValueError"
  | .typeText text w => .ok (execute_type text, w, macro_state)
  | .repeatAct acts count => .ok ([], 0, macro_state.enter_repeat acts count)
  | .unknown ty w => .ok ([.warn ("Unknown action type: " ++ ty)], w, macro_state)

/-- The wait value returned by a successful call of execute. -/
def waitOf : Except String (List Effect × Int × MacroState) → Option Int
  | .ok (_, w, _) => some w
  | .error _ => none

/-! Theorems. -/

/-- try_add_to_queue never grows the queue past MAX_QUEUE_SIZE, so every
queue reachable from the empty one stays within the bound assumed below. -/
theorem try_add_to_queue_length_le (queue : List Nat) (key_id : Nat)
    (h : queue.length ≤ MAX_QUEUE_SIZE) :
    (try_add_to_queue queue key_id).2.length ≤ MAX_QUEUE_SIZE := by
  unfold try_add_to_queue
  by_cases hm : key_id ∈ queue <;> by_cases hl : MAX_QUEUE_SIZE ≤ queue.length <;>
    simp [hm, hl] <;> omega

/-- Claim C1: on any queue within the capacity bound, try_add_to_queue
returns false exactly when the queue holds MAX_QUEUE_SIZE (1000) entries
and the id is new; at exactly 1000 entries a present id is a no-op
success and a new id is a rejected no-op. -/
theorem try_add_to_queue_false_iff (queue : List Nat) (key_id : Nat)
    (h : queue.length ≤ MAX_QUEUE_SIZE) :
    ((try_add_to_queue queue key_id).1 = false ↔
      (queue.length = MAX_QUEUE_SIZE ∧ key_id ∉ queue)) ∧
    (queue.length = MAX_QUEUE_SIZE →
      (key_id ∈ queue → try_add_to_queue queue key_id = (true, queue)) ∧
      (key_id ∉ queue → try_add_to_queue queue key_id = (false, queue))) := by
  unfold try_add_to_queue
  by_cases hm : key_id ∈ queue <;> by_cases hl : MAX_QUEUE_SIZE ≤ queue.length <;>
    simp [hm, hl] <;> omega

/-- Witness for try_add_to_queue_false_iff at queue [5], id 7. -/
theorem try_add_to_queue_false_iff_witness :
    (((try_add_to_queue [5] 7).1 = false ↔
      (List.length [5] = MAX_QUEUE_SIZE ∧ 7 ∉ [5])) ∧
    (List.length [5] = MAX_QUEUE_SIZE →
      (7 ∈ [5] → try_add_to_queue [5] 7 = (true, [5])) ∧
      (7 ∉ [5] → try_add_to_queue [5] 7 = (false, [5])))) :=
  try_add_to_queue_false_iff [5] 7 (by decide)

/-- Claim C6: below capacity, adding the same id twice succeeds both
times, the second call changes nothing, and the id ends up in the queue
exactly once (given the queue respected the no-duplicates invariant). -/
theorem try_add_to_queue_twice (queue : List Nat) (key_id : Nat)
    (h1 : queue.length < MAX_QUEUE_SIZE) (h2 : queue.count key_id ≤ 1) :
    (try_add_to_queue queue key_id).1 = true ∧
    (try_add_to_queue (try_add_to_queue queue key_id).2 key_id).1 = true ∧
    (try_add_to_queue (try_add_to_queue queue key_id).2 key_id).2 =
      (try_add_to_queue queue key_id).2 ∧
    (try_add_to_queue queue key_id).2.count key_id = 1 := by
  by_cases hm : key_id ∈ queue
  · have hcount : queue.count key_id = 1 :=
      le_antisymm h2 (List.count_pos_iff.mpr hm)
    simp [try_add_to_queue, hm, hcount]
  · have hl : ¬ MAX_QUEUE_SIZE ≤ queue.length := by omega
    have hmem : key_id ∈ queue ++ [key_id] := by simp
    have hcount : queue.count key_id = 0 := List.count_eq_zero.mpr hm
    simp [try_add_to_queue, hm, hl, hmem, hcount]

/-- Witness for try_add_to_queue_twice at queue [2], id 3. -/
theorem try_add_to_queue_twice_witness :
    ((try_add_to_queue [2] 3).1 = true ∧
    (try_add_to_queue (try_add_to_queue [2] 3).2 3).1 = true ∧
    (try_add_to_queue (try_add_to_queue [2] 3).2 3).2 =
      (try_add_to_queue [2] 3).2 ∧
    (try_add_to_queue [2] 3).2.count 3 = 1) :=
  try_add_to_queue_twice [2] 3 (by decide) (by decide)

/-- Claim C9 counterexample: on the (hypothetical) queue [0, 0] the code
removes only the first occurrence of 0 — the result still contains 0, so
remove_from_queue does not remove all occurrences. -/
theorem remove_from_queue_counterexample :
    (remove_from_queue [0, 0] 0).1 = true ∧
    (remove_from_queue [0, 0] 0).2 = [0] ∧
    0 ∈ (remove_from_queue [0, 0] 0).2 := by decide

/-- Claim C9 (amended): remove_from_queue drops the first occurrence of
the id (hence every occurrence whenever the queue holds no duplicate of
it), returns true exactly when the id was present, and leaves the queue
unchanged when it was absent. -/
theorem remove_from_queue_spec (queue : List Nat) (key_id : Nat) :
    ((remove_from_queue queue key_id).1 = true ↔ key_id ∈ queue) ∧
    (key_id ∉ queue → remove_from_queue queue key_id = (false, queue)) ∧
    (key_id ∈ queue →
      (remove_from_queue queue key_id).2 = queue.erase key_id ∧
      (remove_from_queue queue key_id).2.count key_id + 1 = queue.count key_id) ∧
    (queue.count key_id ≤ 1 → key_id ∉ (remove_from_queue queue key_id).2) := by
  by_cases hm : key_id ∈ queue
  · have hpos : 0 < queue.count key_id := List.count_pos_iff.mpr hm
    refine ⟨by simp [remove_from_queue, hm],
      fun hc => absurd hm hc, fun _ => ⟨by simp [remove_from_queue, hm], ?_⟩, fun hle => ?_⟩
    · simp only [remove_from_queue, hm, if_pos, List.count_erase_self]
      omega
    · have hcount : queue.count key_id = 1 := le_antisymm hle hpos
      simp only [remove_from_queue, hm, if_pos]
      rw [← List.count_eq_zero]
      rw [List.count_erase_self, hcount]
  · refine ⟨by simp [remove_from_queue, hm], fun _ => by simp [remove_from_queue, hm],
      fun hc => absurd hc hm, fun _ => ?_⟩
    simp [remove_from_queue, hm]

/-- Witness for remove_from_queue_spec at queue [1, 2], id 1. -/
theorem remove_from_queue_spec_witness :
    (((remove_from_queue [1, 2] 1).1 = true ↔ 1 ∈ [1, 2]) ∧
    (1 ∉ [1, 2] → remove_from_queue [1, 2] 1 = (false, [1, 2])) ∧
    (1 ∈ [1, 2] →
      (remove_from_queue [1, 2] 1).2 = List.erase [1, 2] 1 ∧
      (remove_from_queue [1, 2] 1).2.count 1 + 1 = List.count 1 [1, 2]) ∧
    (List.count 1 [1, 2] ≤ 1 → 1 ∉ (remove_from_queue [1, 2] 1).2)) :=
  remove_from_queue_spec [1, 2] 1

/-- Claim C5: stop is idempotent on the state, and after it the macro is
inactive with both deadlines cleared, an empty repeat stack and the
cursor at 0. -/
theorem stop_idempotent (s : MacroState) :
    s.stop.stop = s.stop ∧
    s.stop.is_active = false ∧
    s.stop.action_wait_until = none ∧
    s.stop.cycle_wait_until = none ∧
    s.stop.repeat_stack = [] ∧
    s.stop.current_action_index = 0 := by
  simp [MacroState.stop]

/-- Claim C10: on a macro whose kind is not toggle, interrupt_to_sleeping
only logs and returns — every field is left unchanged. -/
theorem interrupt_to_sleeping_non_toggle (s : MacroState) (now : ℚ)
    (h : s.type ≠ "toggle") :
    s.interrupt_to_sleeping now = s ∧
    (s.interrupt_to_sleeping now).is_active = s.is_active ∧
    (s.interrupt_to_sleeping now).current_action_index = s.current_action_index ∧
    (s.interrupt_to_sleeping now).action_wait_until = s.action_wait_until ∧
    (s.interrupt_to_sleeping now).cycle_wait_until = s.cycle_wait_until ∧
    (s.interrupt_to_sleeping now).is_key_held = s.is_key_held ∧
    (s.interrupt_to_sleeping now).repeat_stack = s.repeat_stack := by
  simp [MacroState.interrupt_to_sleeping, h]

/-- Witness for interrupt_to_sleeping_non_toggle on a press macro. -/
theorem interrupt_to_sleeping_non_toggle_witness :
    ((MacroState.init 3 "press" "m" [] 0).interrupt_to_sleeping 7 =
      MacroState.init 3 "press" "m" [] 0 ∧
    ((MacroState.init 3 "press" "m" [] 0).interrupt_to_sleeping 7).is_active =
      (MacroState.init 3 "press" "m" [] 0).is_active ∧
    ((MacroState.init 3 "press" "m" [] 0).interrupt_to_sleeping 7).current_action_index =
      (MacroState.init 3 "press" "m" [] 0).current_action_index ∧
    ((MacroState.init 3 "press" "m" [] 0).interrupt_to_sleeping 7).action_wait_until =
      (MacroState.init 3 "press" "m" [] 0).action_wait_until ∧
    ((MacroState.init 3 "press" "m" [] 0).interrupt_to_sleeping 7).cycle_wait_until =
      (MacroState.init 3 "press" "m" [] 0).cycle_wait_until ∧
    ((MacroState.init 3 "press" "m" [] 0).interrupt_to_sleeping 7).is_key_held =
      (MacroState.init 3 "press" "m" [] 0).is_key_held ∧
    ((MacroState.init 3 "press" "m" [] 0).interrupt_to_sleeping 7).repeat_stack =
      (MacroState.init 3 "press" "m" [] 0).repeat_stack) :=
  interrupt_to_sleeping_non_toggle (MacroState.init 3 "press" "m" [] 0) 7 (by decide)

/-- Claim C3 counterexample: a state satisfying the at-most-one-deadline
invariant (only the cycle deadline set) on which set_action_wait with a
positive wait arms the action deadline without clearing the cycle
deadline, so both deadlines are set afterwards. -/
theorem deadline_invariant_counterexample :
    MacroState.at_most_one_deadline
      { MacroState.init 0 "toggle" "m" [] 500 with cycle_wait_until := some 5 } = true ∧
    MacroState.at_most_one_deadline
      (MacroState.set_action_wait 0 100
        { MacroState.init 0 "toggle" "m" [] 500 with cycle_wait_until := some 5 }) = false := by
  constructor <;> rfl

/-- Claim C3 (amended): the at-most-one-deadline invariant is preserved
by start, stop, both check-and-clear operations and
interrupt_to_sleeping from any state satisfying it; set_action_wait
preserves it provided the cycle deadline is unset, and set_cycle_wait
provided the action deadline is unset (as holds at their call sites). -/
theorem deadline_invariant_preserved (s : MacroState) (now : ℚ) (wait_ms : Int)
    (h : MacroState.at_most_one_deadline s = true) :
    MacroState.at_most_one_deadline s.start = true ∧
    MacroState.at_most_one_deadline s.stop = true ∧
    MacroState.at_most_one_deadline (s.check_and_clear_action_timer now).2 = true ∧
    MacroState.at_most_one_deadline (s.check_and_clear_cycle_timer now).2 = true ∧
    MacroState.at_most_one_deadline (s.interrupt_to_sleeping now) = true ∧
    (s.cycle_wait_until = none →
      MacroState.at_most_one_deadline (s.set_action_wait now wait_ms) = true) ∧
    (s.action_wait_until = none →
      MacroState.at_most_one_deadline (s.set_cycle_wait now) = true) := by
  unfold MacroState.at_most_one_deadline at h ⊢
  unfold MacroState.start MacroState.stop MacroState.check_and_clear_action_timer
    MacroState.check_and_clear_cycle_timer MacroState.interrupt_to_sleeping
    MacroState.set_cycle_wait MacroState.set_action_wait
  refine ⟨by simp, by simp, ?_, ?_, ?_, ?_, ?_⟩
  · cases ha : s.action_wait_until <;> simp [ha] at h ⊢ <;> split <;> simp [h]
  · cases hc : s.cycle_wait_until <;> simp [hc] at h ⊢ <;> split <;> simp [h]
  · split
    · exact h
    · split <;> simp
  · intro hc
    split <;> simp [hc]
  · intro ha
    split <;> simp [ha]

/-- Witness for deadline_invariant_preserved on a fresh toggle state. -/
theorem deadline_invariant_preserved_witness :
    (MacroState.at_most_one_deadline (MacroState.init 0 "toggle" "m" [] 500).start = true ∧
    MacroState.at_most_one_deadline (MacroState.init 0 "toggle" "m" [] 500).stop = true ∧
    MacroState.at_most_one_deadline
      ((MacroState.init 0 "toggle" "m" [] 500).check_and_clear_action_timer 2).2 = true ∧
    MacroState.at_most_one_deadline
      ((MacroState.init 0 "toggle" "m" [] 500).check_and_clear_cycle_timer 2).2 = true ∧
    MacroState.at_most_one_deadline
      ((MacroState.init 0 "toggle" "m" [] 500).interrupt_to_sleeping 2) = true ∧
    ((MacroState.init 0 "toggle" "m" [] 500).cycle_wait_until = none →
      MacroState.at_most_one_deadline
        ((MacroState.init 0 "toggle" "m" [] 500).set_action_wait 2 40) = true) ∧
    ((MacroState.init 0 "toggle" "m" [] 500).action_wait_until = none →
      MacroState.at_most_one_deadline
        ((MacroState.init 0 "toggle" "m" [] 500).set_cycle_wait 2) = true)) :=
  deadline_invariant_preserved (MacroState.init 0 "toggle" "m" [] 500) 2 40 (by rfl)

/-- Claim C4 counterexample: an active toggle macro whose configured
cycle wait is 0 is not put into the SLEEPING state by
interrupt_to_sleeping — the cycle timer stays unset and the derived state
is ACTIVE. -/
theorem interrupt_to_sleeping_zero_wait_counterexample :
    ({ MacroState.init 0 "toggle" "m" [] 0 with is_active := true }.type = "toggle" ∧
    { MacroState.init 0 "toggle" "m" [] 0 with is_active := true }.is_active = true ∧
    ({ MacroState.init 0 "toggle" "m" [] 0 with
        is_active := true }.interrupt_to_sleeping 7).cycle_wait_until = none ∧
    MacroState.get_state_name
      ({ MacroState.init 0 "toggle" "m" [] 0 with
          is_active := true }.interrupt_to_sleeping 7) = "ACTIVE") := by
  refine ⟨rfl, rfl, rfl, rfl⟩

/-- Claim C4 (amended): on an active toggle macro with a positive
configured cycle wait, interrupt_to_sleeping keeps it active, resets the
cursor to 0, clears the action deadline and the repeat stack, and arms
the cycle timer with the full configured interval, leaving the macro in
the SLEEPING state; with a configured wait of 0 the cycle timer stays
clear instead. -/
theorem interrupt_to_sleeping_toggle (s : MacroState) (now : ℚ)
    (ht : s.type = "toggle") (ha : s.is_active = true) (hw : 0 < s.wait_time) :
    (s.interrupt_to_sleeping now).is_active = true ∧
    (s.interrupt_to_sleeping now).current_action_index = 0 ∧
    (s.interrupt_to_sleeping now).action_wait_until = none ∧
    (s.interrupt_to_sleeping now).repeat_stack = [] ∧
    (s.interrupt_to_sleeping now).cycle_wait_until =
      some (now + (s.wait_time : ℚ) / 1000) ∧
    (s.interrupt_to_sleeping now).get_state_name = "SLEEPING" := by
  unfold MacroState.interrupt_to_sleeping MacroState.set_cycle_wait
    MacroState.get_state_name
  simp [ht, ha, hw]

/-- Witness for interrupt_to_sleeping_toggle on an active toggle macro
with a 500 ms configured cycle wait. -/
theorem interrupt_to_sleeping_toggle_witness :
    (({ MacroState.init 0 "toggle" "m" [] 500 with
        is_active := true }.interrupt_to_sleeping 2).is_active = true ∧
    ({ MacroState.init 0 "toggle" "m" [] 500 with
        is_active := true }.interrupt_to_sleeping 2).current_action_index = 0 ∧
    ({ MacroState.init 0 "toggle" "m" [] 500 with
        is_active := true }.interrupt_to_sleeping 2).action_wait_until = none ∧
    ({ MacroState.init 0 "toggle" "m" [] 500 with
        is_active := true }.interrupt_to_sleeping 2).repeat_stack = [] ∧
    ({ MacroState.init 0 "toggle" "m" [] 500 with
        is_active := true }.interrupt_to_sleeping 2).cycle_wait_until =
      some (2 + ((500 : Int) : ℚ) / 1000) ∧
    ({ MacroState.init 0 "toggle" "m" [] 500 with
        is_active := true }.interrupt_to_sleeping 2).get_state_name = "SLEEPING") :=
  interrupt_to_sleeping_toggle
    { MacroState.init 0 "toggle" "m" [] 500 with is_active := true } 2 rfl rfl (by decide)

/-- Claim C2: when get_current_action reaches the end of the top repeat
frame (inner cursor past the frame's action list), it increments the
frame's iteration count; below the target it resets the inner cursor to 0
and returns the frame's first action; at the target it pops the frame,
steps the top-level cursor past the repeat action, and yields whatever
the parent (enclosing frame at its current inner cursor, or the top level
at the next position) currently provides. -/
theorem get_current_action_frame_end (s : MacroState) (f : RepeatFrame)
    (rest : List RepeatFrame)
    (hact : s.is_active = true)
    (hstack : s.repeat_stack = f :: rest)
    (hend : f.actions.length ≤ f.current_index)
    (hne : f.actions ≠ []) :
    (((f.current_count + 1 : Nat) : Int) < f.max_count →
      s.get_current_action =
        .ok (f.actions.head?,
          { s with repeat_stack :=
              { f with current_count := f.current_count + 1,
                       current_index := 0 } :: rest })) ∧
    (f.max_count ≤ ((f.current_count + 1 : Nat) : Int) →
      s.get_current_action =
        MacroState.get_current_action
          { s with repeat_stack := rest,
                   current_action_index := s.current_action_index + 1 } ∧
      (∀ g rest2, rest = g :: rest2 → g.current_index < g.actions.length →
        s.get_current_action =
          .ok (g.actions[g.current_index]?,
            { s with repeat_stack := rest,
                     current_action_index := s.current_action_index + 1 })) ∧
      (rest = [] → s.current_action_index + 1 < s.actions.length →
        s.get_current_action =
          .ok (s.actions[s.current_action_index + 1]?,
            { s with repeat_stack := [],
                     current_action_index := s.current_action_index + 1 }))) := by
  obtain ⟨kid, ty, nm, acts, wt, ia, cai, awu, cwu, ikh, rstack⟩ := s
  simp only at hstack hact
  subst hstack hact
  obtain ⟨facts, fidx, fcnt, fmax⟩ := f
  simp only at hend hne
  have hnotlt : ¬ fidx < facts.length := Nat.not_lt.mpr hend
  obtain ⟨a, tl, rfl⟩ : ∃ a tl, facts = a :: tl := by
    cases facts with
    | nil => exact absurd rfl hne
    | cons a tl => exact ⟨a, tl, rfl⟩
  have hnotlt2 : ¬ fidx < tl.length + 1 := by simpa using hnotlt
  constructor
  · intro hlt
    have hlt2 : ((fcnt + 1 : Nat) : Int) < fmax := hlt
    have hlt3 : (fcnt : Int) + 1 < fmax := by push_cast at hlt2; exact hlt2
    rw [MacroState.get_current_action]
    simp [hnotlt2, hlt3]
  · intro hge
    have hnotmax : ¬ ((fcnt + 1 : Nat) : Int) < fmax := Int.not_lt.mpr hge
    have hnotmax3 : ¬ (fcnt : Int) + 1 < fmax := by push_cast at hnotmax; exact hnotmax
    have hstep :
        MacroState.get_current_action
          ⟨kid, ty, nm, acts, wt, true, cai, awu, cwu, ikh,
            ⟨a :: tl, fidx, fcnt, fmax⟩ :: rest⟩ =
        MacroState.get_current_action
          ⟨kid, ty, nm, acts, wt, true, cai + 1, awu, cwu, ikh, rest⟩ := by
      rw [MacroState.get_current_action]
      simp [hnotlt2, hnotmax3]
    refine ⟨hstep, ?_, ?_⟩
    · rintro g rest2 rfl hg
      obtain ⟨gacts, gidx, gcnt, gmax⟩ := g
      simp only at hg
      rw [hstep, MacroState.get_current_action]
      simp [hg, List.getElem?_eq_getElem hg]
    · rintro rfl hlt
      rw [hstep, MacroState.get_current_action]
      simp [hlt, List.getElem?_eq_getElem hlt]

/-- Witness for get_current_action_frame_end: an active state whose
single repeat frame over [wait 1] has finished its only iteration
(inner cursor 1, count 0, target 1); popping it resumes one past the
repeat action at the top level. -/
theorem get_current_action_frame_end_witness :
    ((((0 + 1 : Nat) : Nat) : Int) < (1 : Int) →
      MacroState.get_current_action
        { MacroState.init 0 "toggle" "m"
            [Action.repeatAct [Action.wait 1] 1, Action.wait 5] 0 with
          is_active := true
          repeat_stack := [⟨[Action.wait 1], 1, 0, 1⟩] } =
        .ok ([Action.wait 1].head?,
          { { MacroState.init 0 "toggle" "m"
                [Action.repeatAct [Action.wait 1] 1, Action.wait 5] 0 with
              is_active := true
              repeat_stack := [⟨[Action.wait 1], 1, 0, 1⟩] } with
            repeat_stack := [⟨[Action.wait 1], 0, 0 + 1, 1⟩] })) ∧
    ((1 : Int) ≤ ((0 + 1 : Nat) : Int) →
      MacroState.get_current_action
        { MacroState.init 0 "toggle" "m"
            [Action.repeatAct [Action.wait 1] 1, Action.wait 5] 0 with
          is_active := true
          repeat_stack := [⟨[Action.wait 1], 1, 0, 1⟩] } =
        MacroState.get_current_action
          { { MacroState.init 0 "toggle" "m"
                [Action.repeatAct [Action.wait 1] 1, Action.wait 5] 0 with
              is_active := true
              repeat_stack := [⟨[Action.wait 1], 1, 0, 1⟩] } with
            repeat_stack := []
            current_action_index := 0 + 1 } ∧
      (∀ g rest2, ([] : List RepeatFrame) = g :: rest2 →
        g.current_index < g.actions.length →
        MacroState.get_current_action
          { MacroState.init 0 "toggle" "m"
              [Action.repeatAct [Action.wait 1] 1, Action.wait 5] 0 with
            is_active := true
            repeat_stack := [⟨[Action.wait 1], 1, 0, 1⟩] } =
          .ok (g.actions[g.current_index]?,
            { { MacroState.init 0 "toggle" "m"
                  [Action.repeatAct [Action.wait 1] 1, Action.wait 5] 0 with
                is_active := true
                repeat_stack := [⟨[Action.wait 1], 1, 0, 1⟩] } with
              repeat_stack := []
              current_action_index := 0 + 1 })) ∧
      (([] : List RepeatFrame) = [] → 0 + 1 < 2 →
        MacroState.get_current_action
          { MacroState.init 0 "toggle" "m"
              [Action.repeatAct [Action.wait 1] 1, Action.wait 5] 0 with
            is_active := true
            repeat_stack := [⟨[Action.wait 1], 1, 0, 1⟩] } =
          .ok ([Action.repeatAct [Action.wait 1] 1, Action.wait 5][0 + 1]?,
            { { MacroState.init 0 "toggle" "m"
                  [Action.repeatAct [Action.wait 1] 1, Action.wait 5] 0 with
                is_active := true
                repeat_stack := [⟨[Action.wait 1], 1, 0, 1⟩] } with
              repeat_stack := []
              current_action_index := 0 + 1 }))) :=
  get_current_action_frame_end
    { MacroState.init 0 "toggle" "m"
        [Action.repeatAct [Action.wait 1] 1, Action.wait 5] 0 with
      is_active := true
      repeat_stack := [⟨[Action.wait 1], 1, 0, 1⟩] }
    ⟨[Action.wait 1], 1, 0, 1⟩ [] rfl rfl (by decide) (by simp)

/-- Claim C7 counterexample: an unknown action carrying an inline wait of
500 ms makes execute return 500, not 0 — the executor returns
action.get of the wait field before dispatching on the type. -/
theorem execute_unknown_counterexample :
    execute (fun lo _ => lo) (fun _ => []) (Action.unknown "foo" 500)
        (MacroState.init 0 "press" "m" [] 0) =
      .ok ([Effect.warn "Unknown action type: foo"], 500,
        MacroState.init 0 "press" "m" [] 0) ∧
    (500 : Int) ≠ 0 :=
  ⟨rfl, by decide⟩

/-- Claim C7 (amended): on an action of unknown type, execute logs one
warning, performs no device side effect, leaves the macro state
untouched, raises nothing, and returns the action's inline wait (which
is 0 exactly when the action specifies none). -/
theorem execute_unknown (rnd : Int → Int → Int) (parse_keys : String → List Nat)
    (s : MacroState) (ty : String) (w : Int) :
    execute rnd parse_keys (Action.unknown ty w) s =
      .ok ([Effect.warn ("Unknown action type: " ++ ty)], w, s) :=
  rfl

/-- Claim C8: execute returns the inline wait of each well-formed action:
the ms value for a wait action, a value in [min, max] for wait_random
(given the randint contract and min ≤ max), 0 for a repeat action — whose
whole effect is pushing a fresh repeat frame onto the state — and the
inline post-action wait (default 0) for every device action. -/
theorem execute_returns_inline_wait (rnd : Int → Int → Int)
    (parse_keys : String → List Nat) (s : MacroState) (keys text : String)
    (button x y amount w ms a b : Int) (acts : List Action) (count : Int)
    (hr : ∀ lo hi : Int, lo ≤ hi → lo ≤ rnd lo hi ∧ rnd lo hi ≤ hi)
    (hab : a ≤ b) :
    execute rnd parse_keys (Action.wait ms) s = .ok ([], ms, s) ∧
    (execute rnd parse_keys (Action.waitRandom a b) s = .ok ([], rnd a b, s) ∧
      a ≤ rnd a b ∧ rnd a b ≤ b) ∧
    execute rnd parse_keys (Action.repeatAct acts count) s =
      .ok ([], 0,
        { s with repeat_stack :=
            { actions := acts, current_index := 0, current_count := 0,
              max_count := count } :: s.repeat_stack }) ∧
    waitOf (execute rnd parse_keys (Action.press keys w) s) = some w ∧
    waitOf (execute rnd parse_keys (Action.click button w) s) = some w ∧
    waitOf (execute rnd parse_keys (Action.move x y w) s) = some w ∧
    waitOf (execute rnd parse_keys (Action.scroll amount w) s) = some w ∧
    waitOf (execute rnd parse_keys (Action.typeText text w) s) = some w := by
  refine ⟨rfl, ⟨?_, hr a b hab⟩, rfl, rfl, rfl, rfl, rfl, rfl⟩
  simp [execute, hab]

/-- Witness for execute_returns_inline_wait with the lower-bound oracle
as randint. -/
theorem execute_returns_inline_wait_witness :
    (execute (fun lo _ => lo) (fun _ => [4]) (Action.wait 30)
        (MacroState.init 0 "press" "m" [] 0) =
      .ok ([], 30, MacroState.init 0 "press" "m" [] 0) ∧
    (execute (fun lo _ => lo) (fun _ => [4]) (Action.waitRandom 10 20)
        (MacroState.init 0 "press" "m" [] 0) =
      .ok ([], (fun (lo : Int) (_ : Int) => lo) 10 20,
        MacroState.init 0 "press" "m" [] 0) ∧
      (10 : Int) ≤ (fun (lo : Int) (_ : Int) => lo) 10 20 ∧
      (fun (lo : Int) (_ : Int) => lo) 10 20 ≤ 20) ∧
    execute (fun lo _ => lo) (fun _ => [4]) (Action.repeatAct [Action.wait 1] 2)
        (MacroState.init 0 "press" "m" [] 0) =
      .ok ([], 0,
        { MacroState.init 0 "press" "m" [] 0 with
          repeat_stack :=
            [{ actions := [Action.wait 1], current_index := 0,
               current_count := 0, max_count := 2 }] }) ∧
    waitOf (execute (fun lo _ => lo) (fun _ => [4]) (Action.press "a" 7)
      (MacroState.init 0 "press" "m" [] 0)) = some 7 ∧
    waitOf (execute (fun lo _ => lo) (fun _ => [4]) (Action.click 1 7)
      (MacroState.init 0 "press" "m" [] 0)) = some 7 ∧
    waitOf (execute (fun lo _ => lo) (fun _ => [4]) (Action.move 3 4 7)
      (MacroState.init 0 "press" "m" [] 0)) = some 7 ∧
    waitOf (execute (fun lo _ => lo) (fun _ => [4]) (Action.scroll 2 7)
      (MacroState.init 0 "press" "m" [] 0)) = some 7 ∧
    waitOf (execute (fun lo _ => lo) (fun _ => [4]) (Action.typeText "hi" 7)
      (MacroState.init 0 "press" "m" [] 0)) = some 7) :=
  execute_returns_inline_wait (fun lo _ => lo) (fun _ => [4])
    (MacroState.init 0 "press" "m" [] 0) "a" "hi" 1 3 4 2 7 30 10 20
    [Action.wait 1] 2 (fun lo hi h => ⟨le_refl lo, h⟩) (by decide)

end Macropad
